import Mathlib

/-!
Verification of the CineNotes Media Acquisition & Decomposition Pipeline
(`YouTubeVideoProcessor` in `src/experiments/experiment.ipynb`).

The Python class is shallowly embedded: the mutable object becomes an
explicit `ProcState` record threaded through each method, the filesystem
becomes an explicit `FS` record, external effects (the video provider,
`os.makedirs` failures, `subprocess.run`) become oracle parameters, and
Python exceptions become an `Except PyErr` result.  Each method returns
the post-state explicitly because a Python method that raises still keeps
every attribute assignment made before the raise.  A list of `Event`s
records the order of observable filesystem effects (directory creation,
video persistence, decoder invocation).
-/

namespace CineNotes

/-- Characters removed from both ends by Python `str.strip()` (ASCII
whitespace; the model restricts Unicode whitespace to the ASCII range). -/
def pyIsSpace (c : Char) : Bool :=
  c = ' ' || c = '\t' || c = '\n' || c = '\r' || c = '\x0b' || c = '\x0c'

/-- Characters kept by `_sanitize_filename`: `c.isalnum() or c in (' ', '.', '_', '-')`.
Python `str.isalnum` is Unicode-aware; the model uses the ASCII alphanumeric
test `Char.isAlphanum`. -/
def allowedChar (c : Char) : Bool :=
  c.isAlphanum || c = ' ' || c = '.' || c = '_' || c = '-'

/-- Python `str.strip()` on a list of characters: drop whitespace from the
front, then from the back. -/
def pyStrip (l : List Char) : List Char :=
  (l.dropWhile pyIsSpace).rdropWhile pyIsSpace

/-- List-level body of `YouTubeVideoProcessor._sanitize_filename`:
`"".join(c for c in name if c.isalnum() or c in (' ', '.', '_', '-')).strip()`. -/
def sanitizeL (name : List Char) : List Char :=
  pyStrip (name.filter allowedChar)

/-- `YouTubeVideoProcessor._sanitize_filename` on strings. -/
def sanitize_filename (name : String) : String :=
  String.mk (sanitizeL name.data)

/- Helper lemmas about `pyStrip`: it is idempotent, keeps only original
characters, and its first and last characters are not whitespace. -/

theorem pyStrip_within (p : Char → Bool) (l : List Char) :
    (l.dropWhile p).rdropWhile p <:+: l := by
  have h1 := List.rdropWhile_prefix p (l.dropWhile p)
  have h2 := List.dropWhile_suffix p (l := l)
  exact h1.isInfix.trans h2.isInfix

theorem mem_pyStrip (l : List Char) (c : Char) (h : c ∈ pyStrip l) : c ∈ l := by
  have h1 := pyStrip_within pyIsSpace l
  exact h1.subset h

theorem dropWhile_pyStrip (l : List Char) :
    (pyStrip l).dropWhile pyIsSpace = pyStrip l := by
  rw [List.dropWhile_eq_self_iff]
  intro hl
  obtain ⟨t, ht⟩ := List.rdropWhile_prefix pyIsSpace (l.dropWhile pyIsSpace)
  have hlen : 0 < (l.dropWhile pyIsSpace).length := by
    rw [← ht, List.length_append]
    exact Nat.lt_of_lt_of_le hl (Nat.le_add_right _ _)
  have hget : (pyStrip l).get ⟨0, hl⟩ = (l.dropWhile pyIsSpace).get ⟨0, hlen⟩ := by
    simp only [List.get_eq_getElem]
    exact List.IsPrefix.getElem ⟨t, ht⟩ hl
  rw [hget]
  exact List.dropWhile_get_zero_not pyIsSpace l hlen

theorem pyStrip_idem (l : List Char) : pyStrip (pyStrip l) = pyStrip l := by
  show ((pyStrip l).dropWhile pyIsSpace).rdropWhile pyIsSpace = pyStrip l
  rw [dropWhile_pyStrip]
  exact List.rdropWhile_idempotent pyIsSpace (l.dropWhile pyIsSpace)

theorem sanitizeL_allowed (x : List Char) (c : Char) (h : c ∈ sanitizeL x) :
    allowedChar c = true := by
  have := mem_pyStrip (x.filter allowedChar) c h
  exact (List.mem_filter.mp this).2

theorem sanitizeL_idem (x : List Char) : sanitizeL (sanitizeL x) = sanitizeL x := by
  have h : (sanitizeL x).filter allowedChar = sanitizeL x :=
    List.filter_eq_self.mpr (sanitizeL_allowed x)
  show pyStrip ((sanitizeL x).filter allowedChar) = sanitizeL x
  rw [h]
  exact pyStrip_idem (x.filter allowedChar)

theorem pyStrip_head_not_space (l : List Char) :
    (pyStrip l).head?.all (fun c => !pyIsSpace c) = true := by
  cases hh : (pyStrip l).head? with
  | none => rfl
  | some c =>
      have hne : pyStrip l ≠ [] := by
        intro h0
        rw [h0] at hh
        exact Option.noConfusion hh
      have hd : (pyStrip l).head hne = c := by
        rw [List.head?_eq_head hne] at hh
        exact Option.some.inj hh
      have h0 : 0 < (pyStrip l).length := List.length_pos.mpr hne
      have hns := (List.dropWhile_eq_self_iff.mp (dropWhile_pyStrip l)) h0
      have hgh : (pyStrip l).get ⟨0, h0⟩ = (pyStrip l).head hne := by
        rw [List.get_mk_zero]
      rw [hgh, hd] at hns
      simp [hns]

theorem pyStrip_last_not_space (l : List Char) :
    (pyStrip l).getLast?.all (fun c => !pyIsSpace c) = true := by
  cases hh : (pyStrip l).getLast? with
  | none => rfl
  | some c =>
      have hne : pyStrip l ≠ [] := by
        intro h0
        rw [h0] at hh
        exact Option.noConfusion hh
      have hlast : ¬pyIsSpace ((pyStrip l).getLast hne) = true :=
        List.rdropWhile_last_not pyIsSpace (l.dropWhile pyIsSpace) hne
      have hl : (pyStrip l).getLast hne = c := by
        rw [List.getLast?_eq_getLast _ hne] at hh
        exact Option.some.inj hh
      rw [hl] at hlast
      simp [hlast]

/- Data model: paths, filesystem, Python exceptions, observable events. -/

/-- Paths are modelled as plain strings, joined with a fixed separator
(`os.path.join` with the POSIX separator; `os.path.abspath` is modelled as
the identity, paths in the model being already absolute). -/
abbrev Path := String

/-- Model of `os.path.join(a, b)`. -/
def joinPath (a b : Path) : Path := a ++ "/" ++ b

/-- Model of the filesystem: the set of existing directories and files,
kept as duplicate-free lists. -/
structure FS where
  dirs : List Path
  files : List Path
deriving DecidableEq, Repr

/-- Python exception values relevant to the notebook code:
`ValueError` (raised by the extraction precondition checks and re-raised
unchanged), `CineNotesException` (the wrapper raised by every generic
`except Exception` handler, carrying its message argument), and `OSError`
(a filesystem failure from `os.makedirs`, e.g. permission denied). -/
inductive PyErr where
  | valueError (msg : String)
  | cineNotesException (msg : String)
  | osError (p : Path)
deriving DecidableEq, Repr

/-- Observable effects, in order of occurrence: a directory actually
created by `os.makedirs`, the downloaded video persisted to disk, and an
invocation of the external decoder (`subprocess.run`). -/
inductive Event where
  | mkdir (p : Path)
  | persist (p : Path)
  | runCmd (cmd : List String)
deriving DecidableEq, Repr

/-- True exactly on `Event.persist`. -/
def Event.isPersist : Event → Bool
  | .persist _ => true
  | _ => false

/-- True exactly on `Event.mkdir`. -/
def Event.isMkdir : Event → Bool
  | .mkdir _ => true
  | _ => false

/-- Model of `os.makedirs(p, exist_ok=exist_ok)`.  `fail` injects
environmental failures (permission denied, disk full, ...).  An existing
directory is an error only when `exist_ok` is false.  Returns the new
filesystem and the creation events (empty when the directory already
existed). -/
def osMakedirs (fail : Path → Bool) (fs : FS) (p : Path) (exist_ok : Bool) :
    Except PyErr (FS × List Event) :=
  if fail p then .error (.osError p)
  else if p ∈ fs.dirs then
    if exist_ok then .ok (fs, []) else .error (.osError p)
  else .ok ({ fs with dirs := fs.dirs ++ [p] }, [.mkdir p])

/-- The mutable attributes of a `YouTubeVideoProcessor` object.  A Python
method that raises keeps every attribute assignment made before the raise,
so each method below returns its post-state explicitly. -/
structure ProcState where
  youtube_url : String
  output_base_dir : Path
  video_filename : Option Path
  video_dir : Option Path
  audio_dir : Option Path
  frames_dir : Option Path
deriving DecidableEq, Repr

/-- Environment oracle for `download_video`: the outcome of the provider
calls (`YouTube(url)` / `yt.title` resolution, `streams.get_highest_resolution()`,
`stream.download`) and the filesystem failure injection for `os.makedirs`. -/
structure DlEnv where
  resolveTitle : Option String
  streamOk : Bool
  downloadOk : Bool
  fsFail : Path → Bool

/-- Outcome of `subprocess.run(cmd, check=True)`: the executable could not
be launched (`FileNotFoundError`), or it ran and exited with the given
code (`CalledProcessError` when non-zero). -/
inductive RunOutcome where
  | launchFail
  | exited (code : Nat)
deriving DecidableEq, Repr

/-- Model of `YouTubeVideoProcessor.__init__`: stores the URL and the base
directory, creates the base directory (`exist_ok=True`), and initialises
the four placeholder paths to `None`.  Any failure is wrapped as
`CineNotesException("Failed to initialize YouTubeVideoProcessor", sys)`,
and the object is then never produced. -/
def init (fail : Path → Bool) (fs : FS) (youtube_url : String)
    (output_base_dir : Path) : Except PyErr (ProcState × FS × List Event) :=
  match osMakedirs fail fs output_base_dir true with
  | .error _ => .error (.cineNotesException "Failed to initialize YouTubeVideoProcessor")
  | .ok (fs1, ev) =>
      .ok ({ youtube_url := youtube_url, output_base_dir := output_base_dir,
             video_filename := none, video_dir := none,
             audio_dir := none, frames_dir := none }, fs1, ev)

/-- Model of `YouTubeVideoProcessor.download_video`, statement by statement:
resolve the URL and pick the highest-resolution stream; sanitize the title;
assign `video_dir` and create it (`exist_ok=True`); download the stream to
`video_dir/video.mp4` and assign `video_filename`; assign `audio_dir` and
`frames_dir` and create both (`exist_ok=True`); return `video_filename`.
Every failure is caught and re-raised as
`CineNotesException("Failed to download video", sys)`; attribute
assignments made before the failing statement survive. -/
def download_video (env : DlEnv) (s : ProcState) (fs : FS) :
    ProcState × FS × List Event × Except PyErr Path :=
  match env.resolveTitle with
  | none => (s, fs, [], .error (.cineNotesException "Failed to download video"))
  | some t =>
    if !env.streamOk then
      (s, fs, [], .error (.cineNotesException "Failed to download video"))
    else
      let video_title := sanitize_filename t
      let vdir := joinPath s.output_base_dir video_title
      let s1 := { s with video_dir := some vdir }
      match osMakedirs env.fsFail fs vdir true with
      | .error _ => (s1, fs, [], .error (.cineNotesException "Failed to download video"))
      | .ok (fs1, ev1) =>
        if !env.downloadOk then
          (s1, fs1, ev1, .error (.cineNotesException "Failed to download video"))
        else
          let vfile := joinPath vdir "video.mp4"
          let fs2 := { fs1 with files :=
            if vfile ∈ fs1.files then fs1.files else fs1.files ++ [vfile] }
          let s2 := { s1 with video_filename := some vfile }
          let adir := joinPath vdir "audio"
          let fdir := joinPath vdir "frames"
          let s3 := { s2 with audio_dir := some adir, frames_dir := some fdir }
          match osMakedirs env.fsFail fs2 adir true with
          | .error _ => (s3, fs2, ev1 ++ [.persist vfile],
              .error (.cineNotesException "Failed to download video"))
          | .ok (fs3, ev3) =>
            match osMakedirs env.fsFail fs3 fdir true with
            | .error _ => (s3, fs3, ev1 ++ [.persist vfile] ++ ev3,
                .error (.cineNotesException "Failed to download video"))
            | .ok (fs4, ev4) =>
              (s3, fs4, ev1 ++ [.persist vfile] ++ ev3 ++ ev4, .ok vfile)

/-- Model of `YouTubeVideoProcessor.extract_audio`: if `video_filename` is
falsy (`None` or empty), raise `ValueError` (re-raised unchanged by the
`except ValueError` clause); otherwise build the audio path and the ffmpeg
argument list and run it; a launch failure or non-zero exit is wrapped as
`CineNotesException("Failed to extract audio", sys)`.  When `audio_dir` is
still `None`, `os.path.join(None, ...)` raises `TypeError`, caught by the
generic handler.  The session state is returned unchanged in every branch,
mirroring the absence of attribute assignments in the source. -/
def extract_audio (run : List String → RunOutcome) (s : ProcState)
    (audio_filename : String) : ProcState × List Event × Except PyErr Path :=
  match s.video_filename with
  | none => (s, [], .error (.valueError "No video has been downloaded. Call download_video() first."))
  | some vf =>
    if vf = "" then
      (s, [], .error (.valueError "No video has been downloaded. Call download_video() first."))
    else
      match s.audio_dir with
      | none => (s, [], .error (.cineNotesException "Failed to extract audio"))
      | some adir =>
        let audio_path := joinPath adir audio_filename
        let cmd := ["ffmpeg", "-i", vf, "-vn", "-acodec", "pcm_s16le",
                    "-ar", "44100", "-ac", "2", audio_path, "-y"]
        match run cmd with
        | .launchFail => (s, [], .error (.cineNotesException "Failed to extract audio"))
        | .exited 0 => (s, [.runCmd cmd], .ok audio_path)
        | .exited (_ + 1) => (s, [.runCmd cmd], .error (.cineNotesException "Failed to extract audio"))

/-- Model of `YouTubeVideoProcessor.extract_frames`, mirroring
`extract_audio`: the frame pattern is
`frames_dir/<prefix>%05d.<format>` and the successful result is
`frames_dir` itself.  The source parameter names are `image_prefix` and
`image_format`. -/
def extract_frames (run : List String → RunOutcome) (s : ProcState)
    (imagePre imageFmt : String) : ProcState × List Event × Except PyErr Path :=
  match s.video_filename with
  | none => (s, [], .error (.valueError "No video has been downloaded. Call download_video() first."))
  | some vf =>
    if vf = "" then
      (s, [], .error (.valueError "No video has been downloaded. Call download_video() first."))
    else
      match s.frames_dir with
      | none => (s, [], .error (.cineNotesException "Failed to extract frames"))
      | some fdir =>
        let frame_pattern := joinPath fdir (imagePre ++ "%05d." ++ imageFmt)
        let cmd := ["ffmpeg", "-i", vf, frame_pattern, "-y"]
        match run cmd with
        | .launchFail => (s, [], .error (.cineNotesException "Failed to extract frames"))
        | .exited 0 => (s, [.runCmd cmd], .ok fdir)
        | .exited (_ + 1) => (s, [.runCmd cmd], .error (.cineNotesException "Failed to extract frames"))

/-- The path a successful extraction or download returns, if any. -/
def okPath : Except PyErr Path → Option Path
  | .ok p => some p
  | .error _ => none

/- Helper lemmas about the embedded operations. -/

theorem init_ok_shape (fail : Path → Bool) (fs : FS) (url root : String)
    (s : ProcState) (fs1 : FS) (ev0 : List Event)
    (h : init fail fs url root = .ok (s, fs1, ev0)) :
    s = ⟨url, root, none, none, none, none⟩ := by
  unfold init at h
  split at h
  · exact absurd h (by simp)
  · rw [Except.ok.injEq, Prod.mk.injEq] at h
    exact h.1.symm

theorem osMakedirs_ok_facts (fail : Path → Bool) (fs : FS) (p : Path) (b : Bool)
    (fs' : FS) (ev : List Event) (h : osMakedirs fail fs p b = .ok (fs', ev)) :
    fail p = false ∧ p ∈ fs'.dirs ∧ (∀ q ∈ fs.dirs, q ∈ fs'.dirs) ∧
    fs'.files = fs.files ∧ (ev = [] ∨ ev = [Event.mkdir p]) ∧
    (p ∈ fs.dirs → fs' = fs ∧ ev = []) := by
  unfold osMakedirs at h
  split at h
  · exact absurd h (by simp)
  next hfail =>
    split at h
    next hmem =>
      split at h
      · rw [Except.ok.injEq, Prod.mk.injEq] at h
        obtain ⟨h1, h2⟩ := h
        subst h1; subst h2
        exact ⟨Bool.of_not_eq_true hfail, hmem, fun q hq => hq, rfl,
          Or.inl rfl, fun _ => ⟨rfl, rfl⟩⟩
      · exact absurd h (by simp)
    next hmem =>
      rw [Except.ok.injEq, Prod.mk.injEq] at h
      obtain ⟨h1, h2⟩ := h
      subst h1; subst h2
      refine ⟨Bool.of_not_eq_true hfail, ?_, ?_, rfl, Or.inr rfl, fun hp => absurd hp hmem⟩
      · simp
      · intro q hq
        simp [hq]

theorem joinPath_ne_parent (a b : Path) : joinPath a b ≠ a := by
  intro h
  have hlen := congrArg String.length h
  rw [joinPath, String.length_append, String.length_append] at hlen
  have hone : ("/" : String).length = 1 := rfl
  rw [hone] at hlen
  omega

theorem joinPath_ne_join (a : Path) (b c : String) (h : b.length ≠ c.length) :
    joinPath a b ≠ joinPath a c := by
  intro he
  have hlen := congrArg String.length he
  rw [joinPath, joinPath, String.length_append, String.length_append,
    String.length_append, String.length_append] at hlen
  omega

theorem osMakedirs_new (fail : Path → Bool) (fs : FS) (p : Path)
    (hf : fail p = false) (hm : p ∉ fs.dirs) :
    osMakedirs fail fs p true = .ok ({ fs with dirs := fs.dirs ++ [p] }, [Event.mkdir p]) := by
  unfold osMakedirs
  rw [hf]
  simp [hm]

theorem osMakedirs_existing (fail : Path → Bool) (fs : FS) (p : Path)
    (hf : fail p = false) (hm : p ∈ fs.dirs) :
    osMakedirs fail fs p true = .ok (fs, []) := by
  unfold osMakedirs
  rw [hf]
  simp [hm]

theorem extract_audio_no_mkdir (run : List String → RunOutcome) (s : ProcState)
    (audio_filename : String) :
    (extract_audio run s audio_filename).2.1.all (fun e => !e.isMkdir) = true := by
  unfold extract_audio
  repeat first | rfl | split | dsimp only

theorem extract_frames_no_mkdir (run : List String → RunOutcome) (s : ProcState)
    (imagePre imageFmt : String) :
    (extract_frames run s imagePre imageFmt).2.1.all (fun e => !e.isMkdir) = true := by
  unfold extract_frames
  repeat first | rfl | split | dsimp only

theorem download_video_success (env : DlEnv) (s : ProcState) (fs fs1 fs3 fs4 : FS)
    (t : String) (ev1 ev3 ev4 : List Event)
    (ht : env.resolveTitle = some t) (hstr : env.streamOk = true)
    (hd : env.downloadOk = true)
    (h1 : osMakedirs env.fsFail fs
      (joinPath s.output_base_dir (sanitize_filename t)) true = .ok (fs1, ev1))
    (h3 : osMakedirs env.fsFail
      { fs1 with files :=
        if joinPath (joinPath s.output_base_dir (sanitize_filename t)) "video.mp4" ∈ fs1.files
        then fs1.files
        else fs1.files ++ [joinPath (joinPath s.output_base_dir (sanitize_filename t)) "video.mp4"] }
      (joinPath (joinPath s.output_base_dir (sanitize_filename t)) "audio") true = .ok (fs3, ev3))
    (h4 : osMakedirs env.fsFail fs3
      (joinPath (joinPath s.output_base_dir (sanitize_filename t)) "frames") true = .ok (fs4, ev4)) :
    download_video env s fs =
      ({ s with
          video_dir := some (joinPath s.output_base_dir (sanitize_filename t)),
          video_filename := some (joinPath (joinPath s.output_base_dir (sanitize_filename t)) "video.mp4"),
          audio_dir := some (joinPath (joinPath s.output_base_dir (sanitize_filename t)) "audio"),
          frames_dir := some (joinPath (joinPath s.output_base_dir (sanitize_filename t)) "frames") },
       fs4,
       ev1 ++ [Event.persist (joinPath (joinPath s.output_base_dir (sanitize_filename t)) "video.mp4")]
         ++ ev3 ++ ev4,
       .ok (joinPath (joinPath s.output_base_dir (sanitize_filename t)) "video.mp4")) := by
  unfold download_video
  rw [ht]
  try dsimp only
  rw [hstr]
  rw [if_neg (by simp)]
  try dsimp only
  rw [h1]
  try dsimp only
  rw [hd]
  rw [if_neg (by simp)]
  try dsimp only
  rw [h3]
  try dsimp only
  rw [h4]

/- Claim theorems. -/

/-- C7: the filename sanitizer is idempotent: for every string `x`,
`sanitize(sanitize(x)) == sanitize(x)`. -/
theorem c7_sanitize_idempotent (x : String) :
    sanitize_filename (sanitize_filename x) = sanitize_filename x :=
  congrArg String.mk (sanitizeL_idem x.data)

/-- C8: for every string `x`, every character of `sanitize(x)` is
alphanumeric or one of space, `.`, `_`, `-`; `sanitize(x)` has no leading
or trailing whitespace; and the empty input yields the empty output.
(Purity, totality and determinism hold by construction: `sanitize_filename`
is a total Lean function.) -/
theorem c8_sanitize_charset (x : String) :
    (sanitize_filename x).data.all allowedChar = true ∧
    (sanitize_filename x).data.head?.all (fun c => !pyIsSpace c) = true ∧
    (sanitize_filename x).data.getLast?.all (fun c => !pyIsSpace c) = true ∧
    sanitize_filename "" = "" := by
  refine ⟨?_, ?_, ?_, rfl⟩
  · rw [List.all_eq_true]
    intro c hc
    exact sanitizeL_allowed x.data c hc
  · exact pyStrip_head_not_space (x.data.filter allowedChar)
  · exact pyStrip_last_not_space (x.data.filter allowedChar)

/-- C10: `extract_audio` and `extract_frames` never mutate the session
state: in every branch, returning or raising, the post-state equals the
input state; only construction and `download_video` assign session
fields. -/
theorem c10_extractors_preserve_state (run : List String → RunOutcome)
    (s : ProcState) (audio_filename imagePre imageFmt : String) :
    (extract_audio run s audio_filename).1 = s ∧
    (extract_frames run s imagePre imageFmt).1 = s := by
  constructor
  · unfold extract_audio
    repeat first | rfl | split | dsimp only
  · unfold extract_frames
    repeat first | rfl | split | dsimp only

/-- C5: on an acquired session, `extract_audio` invokes the decoder with
`[ffmpeg, -i, videoPath, -vn, -acodec, pcm_s16le, -ar, 44100, -ac, 2, audioPath, -y]`
and returns `audioDir/filename`, and `extract_frames` invokes it with
`[ffmpeg, -i, videoPath, framesDir/<prefix>%05d.<format>, -y]` and
returns the frames directory. -/
theorem c5_decoder_invocations (run : List String → RunOutcome)
    (s : ProcState) (vf adir fdir audio_filename imagePre imageFmt : String)
    (hvf : s.video_filename = some vf) (hne : vf ≠ "")
    (ha : s.audio_dir = some adir) (hf : s.frames_dir = some fdir)
    (hrunA : run ["ffmpeg", "-i", vf, "-vn", "-acodec", "pcm_s16le", "-ar",
      "44100", "-ac", "2", joinPath adir audio_filename, "-y"] = .exited 0)
    (hrunF : run ["ffmpeg", "-i", vf,
      joinPath fdir (imagePre ++ "%05d." ++ imageFmt), "-y"] = .exited 0) :
    extract_audio run s audio_filename =
      (s, [Event.runCmd ["ffmpeg", "-i", vf, "-vn", "-acodec", "pcm_s16le",
        "-ar", "44100", "-ac", "2", joinPath adir audio_filename, "-y"]],
       .ok (joinPath adir audio_filename)) ∧
    extract_frames run s imagePre imageFmt =
      (s, [Event.runCmd ["ffmpeg", "-i", vf,
        joinPath fdir (imagePre ++ "%05d." ++ imageFmt), "-y"]],
       .ok fdir) := by
  constructor
  · unfold extract_audio
    rw [hvf, ha]
    dsimp only
    rw [if_neg hne, hrunA]
  · unfold extract_frames
    rw [hvf, hf]
    dsimp only
    rw [if_neg hne, hrunF]

/-- C5 witness: concrete acquired session, decoder exiting 0. -/
theorem c5_decoder_invocations_witness :
    extract_audio (fun _ => .exited 0)
        ⟨"u", "r", some "r/t/video.mp4", some "r/t", some "r/t/audio", some "r/t/frames"⟩
        "audio.wav" =
      (⟨"u", "r", some "r/t/video.mp4", some "r/t", some "r/t/audio", some "r/t/frames"⟩,
       [Event.runCmd ["ffmpeg", "-i", "r/t/video.mp4", "-vn", "-acodec", "pcm_s16le",
        "-ar", "44100", "-ac", "2", joinPath "r/t/audio" "audio.wav", "-y"]],
       .ok (joinPath "r/t/audio" "audio.wav")) ∧
    extract_frames (fun _ => .exited 0)
        ⟨"u", "r", some "r/t/video.mp4", some "r/t", some "r/t/audio", some "r/t/frames"⟩
        "frame_" "jpg" =
      (⟨"u", "r", some "r/t/video.mp4", some "r/t", some "r/t/audio", some "r/t/frames"⟩,
       [Event.runCmd ["ffmpeg", "-i", "r/t/video.mp4",
        joinPath "r/t/frames" ("frame_" ++ "%05d." ++ "jpg"), "-y"]],
       .ok "r/t/frames") :=
  c5_decoder_invocations (fun _ => .exited 0)
    ⟨"u", "r", some "r/t/video.mp4", some "r/t", some "r/t/audio", some "r/t/frames"⟩
    "r/t/video.mp4" "r/t/audio" "r/t/frames" "audio.wav" "frame_" "jpg"
    rfl (by decide) rfl rfl rfl rfl

/-- C6 counterexample: on a concrete acquired session, a launch failure of
the decoder and a non-zero decoder exit produce the very same
`CineNotesException "Failed to extract audio"` with no captured output, so
no `ToolNotFoundError` distinguishable from `ExtractionError` exists. -/
theorem c6_counterexample :
    (extract_audio (fun _ => .launchFail)
        ⟨"u", "r", some "r/t/video.mp4", some "r/t", some "r/t/audio", some "r/t/frames"⟩
        "audio.wav").2.2 =
      (extract_audio (fun _ => .exited 1)
        ⟨"u", "r", some "r/t/video.mp4", some "r/t", some "r/t/audio", some "r/t/frames"⟩
        "audio.wav").2.2 ∧
    (extract_audio (fun _ => .launchFail)
        ⟨"u", "r", some "r/t/video.mp4", some "r/t", some "r/t/audio", some "r/t/frames"⟩
        "audio.wav").2.2 =
      .error (.cineNotesException "Failed to extract audio") :=
  ⟨rfl, rfl⟩

/-- C6 amended: on an acquired session, a failure to launch the decoder
and a non-zero decoder exit are both surfaced as the same
`CineNotesException` with the fixed message `Failed to extract audio`
(resp. `Failed to extract frames`); the two causes are not distinguishable
by exception type and no diagnostic output of the command is carried. -/
theorem c6_amended (run : List String → RunOutcome) (s : ProcState)
    (vf adir fdir audio_filename imagePre imageFmt : String) (n : Nat)
    (hvf : s.video_filename = some vf) (hne : vf ≠ "")
    (ha : s.audio_dir = some adir) (hf : s.frames_dir = some fdir) :
    (run ["ffmpeg", "-i", vf, "-vn", "-acodec", "pcm_s16le", "-ar", "44100",
        "-ac", "2", joinPath adir audio_filename, "-y"] = .launchFail →
      (extract_audio run s audio_filename).2.2 =
        .error (.cineNotesException "Failed to extract audio")) ∧
    (run ["ffmpeg", "-i", vf, "-vn", "-acodec", "pcm_s16le", "-ar", "44100",
        "-ac", "2", joinPath adir audio_filename, "-y"] = .exited (n + 1) →
      (extract_audio run s audio_filename).2.2 =
        .error (.cineNotesException "Failed to extract audio")) ∧
    (run ["ffmpeg", "-i", vf, joinPath fdir (imagePre ++ "%05d." ++ imageFmt),
        "-y"] = .launchFail →
      (extract_frames run s imagePre imageFmt).2.2 =
        .error (.cineNotesException "Failed to extract frames")) ∧
    (run ["ffmpeg", "-i", vf, joinPath fdir (imagePre ++ "%05d." ++ imageFmt),
        "-y"] = .exited (n + 1) →
      (extract_frames run s imagePre imageFmt).2.2 =
        .error (.cineNotesException "Failed to extract frames")) := by
  refine ⟨?_, ?_, ?_, ?_⟩ <;> intro hrun
  · unfold extract_audio
    rw [hvf]
    dsimp only
    rw [if_neg hne, ha]
    dsimp only
    rw [hrun]
  · unfold extract_audio
    rw [hvf]
    dsimp only
    rw [if_neg hne, ha]
    dsimp only
    rw [hrun]
  · unfold extract_frames
    rw [hvf]
    dsimp only
    rw [if_neg hne, hf]
    dsimp only
    rw [hrun]
  · unfold extract_frames
    rw [hvf]
    dsimp only
    rw [if_neg hne, hf]
    dsimp only
    rw [hrun]

/-- C6 amended witness: concrete acquired session, decoder always exiting 1. -/
theorem c6_amended_witness :
    ((fun _ => RunOutcome.exited 1) ["ffmpeg", "-i", "r/t/video.mp4", "-vn",
        "-acodec", "pcm_s16le", "-ar", "44100", "-ac", "2",
        joinPath "r/t/audio" "audio.wav", "-y"] = .launchFail →
      (extract_audio (fun _ => RunOutcome.exited 1)
        ⟨"u", "r", some "r/t/video.mp4", some "r/t", some "r/t/audio", some "r/t/frames"⟩
        "audio.wav").2.2 = .error (.cineNotesException "Failed to extract audio")) ∧
    ((fun _ => RunOutcome.exited 1) ["ffmpeg", "-i", "r/t/video.mp4", "-vn",
        "-acodec", "pcm_s16le", "-ar", "44100", "-ac", "2",
        joinPath "r/t/audio" "audio.wav", "-y"] = .exited (0 + 1) →
      (extract_audio (fun _ => RunOutcome.exited 1)
        ⟨"u", "r", some "r/t/video.mp4", some "r/t", some "r/t/audio", some "r/t/frames"⟩
        "audio.wav").2.2 = .error (.cineNotesException "Failed to extract audio")) ∧
    ((fun _ => RunOutcome.exited 1) ["ffmpeg", "-i", "r/t/video.mp4",
        joinPath "r/t/frames" ("frame_" ++ "%05d." ++ "jpg"), "-y"] = .launchFail →
      (extract_frames (fun _ => RunOutcome.exited 1)
        ⟨"u", "r", some "r/t/video.mp4", some "r/t", some "r/t/audio", some "r/t/frames"⟩
        "frame_" "jpg").2.2 = .error (.cineNotesException "Failed to extract frames")) ∧
    ((fun _ => RunOutcome.exited 1) ["ffmpeg", "-i", "r/t/video.mp4",
        joinPath "r/t/frames" ("frame_" ++ "%05d." ++ "jpg"), "-y"] = .exited (0 + 1) →
      (extract_frames (fun _ => RunOutcome.exited 1)
        ⟨"u", "r", some "r/t/video.mp4", some "r/t", some "r/t/audio", some "r/t/frames"⟩
        "frame_" "jpg").2.2 = .error (.cineNotesException "Failed to extract frames")) :=
  c6_amended (fun _ => RunOutcome.exited 1)
    ⟨"u", "r", some "r/t/video.mp4", some "r/t", some "r/t/audio", some "r/t/frames"⟩
    "r/t/video.mp4" "r/t/audio" "r/t/frames" "audio.wav" "frame_" "jpg" 0
    rfl (by decide) rfl rfl

/-- C2: on a freshly constructed session (no acquisition performed),
`extract_audio` and `extract_frames` raise the precondition `ValueError`
(re-raised unchanged, hence distinct in type from the
`CineNotesException` used for extraction failures) and perform no
filesystem writes (no events) before raising. -/
theorem c2_precondition_enforcement (fail : Path → Bool) (fs : FS)
    (url root : String) (s : ProcState) (fs1 : FS) (ev0 : List Event)
    (run : List String → RunOutcome) (audio_filename imagePre imageFmt : String)
    (hinit : init fail fs url root = .ok (s, fs1, ev0)) :
    extract_audio run s audio_filename =
      (s, [], .error (.valueError "No video has been downloaded. Call download_video() first.")) ∧
    extract_frames run s imagePre imageFmt =
      (s, [], .error (.valueError "No video has been downloaded. Call download_video() first.")) ∧
    PyErr.valueError "No video has been downloaded. Call download_video() first." ≠
      PyErr.cineNotesException "Failed to extract audio" ∧
    PyErr.valueError "No video has been downloaded. Call download_video() first." ≠
      PyErr.cineNotesException "Failed to extract frames" := by
  have hs := init_ok_shape fail fs url root s fs1 ev0 hinit
  subst hs
  exact ⟨rfl, rfl, by simp, by simp⟩

/-- C2 witness: concrete fresh session built by `init`. -/
theorem c2_precondition_enforcement_witness :
    extract_audio (fun _ => RunOutcome.exited 0)
        ⟨"u", "r", none, none, none, none⟩ "audio.wav" =
      (⟨"u", "r", none, none, none, none⟩, [],
       .error (.valueError "No video has been downloaded. Call download_video() first.")) ∧
    extract_frames (fun _ => RunOutcome.exited 0)
        ⟨"u", "r", none, none, none, none⟩ "frame_" "jpg" =
      (⟨"u", "r", none, none, none, none⟩, [],
       .error (.valueError "No video has been downloaded. Call download_video() first.")) ∧
    PyErr.valueError "No video has been downloaded. Call download_video() first." ≠
      PyErr.cineNotesException "Failed to extract audio" ∧
    PyErr.valueError "No video has been downloaded. Call download_video() first." ≠
      PyErr.cineNotesException "Failed to extract frames" :=
  c2_precondition_enforcement (fun _ => false) ⟨[], []⟩ "u" "r"
    ⟨"u", "r", none, none, none, none⟩ ⟨["r"], []⟩ [Event.mkdir "r"]
    (fun _ => RunOutcome.exited 0) "audio.wav" "frame_" "jpg" rfl

/-- C1 counterexample: with a concrete fresh session, the provider
resolving title `t` and the download succeeding, but `os.makedirs` failing
on the audio subdirectory, `download_video` raises
(`CineNotesException`), yet `video_filename` is left set — so the session
field does not remain `None` on this failed acquisition. -/
theorem c1_counterexample :
    (download_video ⟨some "t", true, true, fun p => p == "r/t/audio"⟩
        ⟨"u", "r", none, none, none, none⟩ ⟨["r"], []⟩).2.2.2 =
      .error (.cineNotesException "Failed to download video") ∧
    (download_video ⟨some "t", true, true, fun p => p == "r/t/audio"⟩
        ⟨"u", "r", none, none, none, none⟩ ⟨["r"], []⟩).1.video_filename =
      some "r/t/video.mp4" :=
  ⟨rfl, rfl⟩

/-- C1 amended: `video_filename` is `None` after construction, and after a
`download_video` call it is non-`None` exactly when the video file has
been persisted to disk during that call: every failure before persistence
leaves it `None`, success sets it to the returned path, and a failure
after persistence (creating the audio/frames directories) raises while
leaving it set. -/
theorem c1_amended (fail : Path → Bool) (fs : FS) (url root : String)
    (s : ProcState) (fs1 : FS) (ev0 : List Event) (env : DlEnv)
    (s' : ProcState) (fs' : FS) (ev : List Event) (r : Except PyErr Path)
    (hinit : init fail fs url root = .ok (s, fs1, ev0))
    (hdl : download_video env s fs1 = (s', fs', ev, r)) :
    s.video_filename = none ∧
    (okPath r ≠ none → s'.video_filename = okPath r) ∧
    (s'.video_filename = none ↔ ev.all (fun e => !e.isPersist) = true) := by
  have hs := init_ok_shape fail fs url root s fs1 ev0 hinit
  subst hs
  refine ⟨rfl, ?_⟩
  unfold download_video at hdl
  split at hdl
  · simp only [Prod.mk.injEq] at hdl
    obtain ⟨rfl, rfl, rfl, rfl⟩ := hdl
    exact ⟨fun h => absurd rfl h, by simp⟩
  · split at hdl
    · simp only [Prod.mk.injEq] at hdl
      obtain ⟨rfl, rfl, rfl, rfl⟩ := hdl
      exact ⟨fun h => absurd rfl h, by simp⟩
    · dsimp only at hdl
      split at hdl
      · simp only [Prod.mk.injEq] at hdl
        obtain ⟨rfl, rfl, rfl, rfl⟩ := hdl
        exact ⟨fun h => absurd rfl h, by simp⟩
      next fs1a ev1 heq =>
        split at hdl
        · simp only [Prod.mk.injEq] at hdl
          obtain ⟨rfl, rfl, rfl, rfl⟩ := hdl
          obtain ⟨-, -, -, -, hev, -⟩ := osMakedirs_ok_facts _ _ _ _ _ _ heq
          refine ⟨fun h => absurd rfl h, ?_⟩
          rcases hev with rfl | rfl <;> simp [Event.isPersist]
        · try dsimp only at hdl
          split at hdl
          · simp only [Prod.mk.injEq] at hdl
            obtain ⟨rfl, rfl, rfl, rfl⟩ := hdl
            refine ⟨fun h => absurd rfl h, ?_⟩
            simp [List.all_append, Event.isPersist]
          next fs3 ev3 heq3 =>
            split at hdl
            · simp only [Prod.mk.injEq] at hdl
              obtain ⟨rfl, rfl, rfl, rfl⟩ := hdl
              refine ⟨fun h => absurd rfl h, ?_⟩
              simp [List.all_append, Event.isPersist]
            next fs4 ev4 heq4 =>
              simp only [Prod.mk.injEq] at hdl
              obtain ⟨rfl, rfl, rfl, rfl⟩ := hdl
              refine ⟨fun _ => rfl, ?_⟩
              simp [List.all_append, Event.isPersist]

/-- C1 amended witness: concrete fully successful acquisition. -/
theorem c1_amended_witness :
    (⟨"u", "r", none, none, none, none⟩ : ProcState).video_filename = none ∧
    (okPath (.ok "r/t/video.mp4") ≠ none →
      (⟨"u", "r", some "r/t/video.mp4", some "r/t", some "r/t/audio",
        some "r/t/frames"⟩ : ProcState).video_filename = okPath (.ok "r/t/video.mp4")) ∧
    ((⟨"u", "r", some "r/t/video.mp4", some "r/t", some "r/t/audio",
        some "r/t/frames"⟩ : ProcState).video_filename = none ↔
      ([Event.mkdir "r/t", Event.persist "r/t/video.mp4", Event.mkdir "r/t/audio",
        Event.mkdir "r/t/frames"].all (fun e => !e.isPersist)) = true) :=
  c1_amended (fun _ => false) ⟨[], []⟩ "u" "r"
    ⟨"u", "r", none, none, none, none⟩ ⟨["r"], []⟩ [Event.mkdir "r"]
    ⟨some "t", true, true, fun _ => false⟩
    ⟨"u", "r", some "r/t/video.mp4", some "r/t", some "r/t/audio", some "r/t/frames"⟩
    ⟨["r", "r/t", "r/t/audio", "r/t/frames"], ["r/t/video.mp4"]⟩
    [Event.mkdir "r/t", Event.persist "r/t/video.mp4", Event.mkdir "r/t/audio",
      Event.mkdir "r/t/frames"]
    (.ok "r/t/video.mp4") rfl rfl

/-- C4 counterexample: a concrete URL that resolves but whose download
step fails: `download_video` raises, `video_filename` stays unset, but the
video directory `r/t` HAS been created on the filesystem, contradicting
the claim that failed acquisition creates no video directory. -/
theorem c4_counterexample :
    (download_video ⟨some "t", true, false, fun _ => false⟩
        ⟨"u", "r", none, none, none, none⟩ ⟨["r"], []⟩).2.2.2 =
      .error (.cineNotesException "Failed to download video") ∧
    "r/t" ∈ (download_video ⟨some "t", true, false, fun _ => false⟩
        ⟨"u", "r", none, none, none, none⟩ ⟨["r"], []⟩).2.1.dirs :=
  ⟨rfl, by decide⟩

/-- C4 amended: every acquisition failing up to and including the download
step raises `CineNotesException "Failed to download video"` and leaves
`video_filename` unset; when the failure occurs at resolution or stream
selection (unreachable or invalid resource), the session state and the
filesystem are completely unchanged (in particular no video directory is
created), while a failure of the download step itself may leave the
already-created video directory on disk. -/
theorem c4_amended (env : DlEnv) (s : ProcState) (fs : FS)
    (hFresh : s.video_filename = none)
    (hFail : env.resolveTitle = none ∨ env.streamOk = false ∨ env.downloadOk = false) :
    (download_video env s fs).2.2.2 =
      .error (.cineNotesException "Failed to download video") ∧
    (download_video env s fs).1.video_filename = none ∧
    ((env.resolveTitle = none ∨ env.streamOk = false) →
      download_video env s fs =
        (s, fs, [], .error (.cineNotesException "Failed to download video"))) := by
  rcases hres : download_video env s fs with ⟨s', fs', ev, r⟩
  unfold download_video at hres
  split at hres
  next henv =>
    simp only [Prod.mk.injEq] at hres
    obtain ⟨rfl, rfl, rfl, rfl⟩ := hres
    exact ⟨rfl, hFresh, fun _ => rfl⟩
  next t henv =>
    split at hres
    · simp only [Prod.mk.injEq] at hres
      obtain ⟨rfl, rfl, rfl, rfl⟩ := hres
      exact ⟨rfl, hFresh, fun _ => rfl⟩
    next hstream =>
      have hst : env.streamOk = true := by
        rcases henv' : env.streamOk with _ | _
        · rw [henv'] at hstream; exact absurd rfl hstream
        · rfl
      have hd : env.downloadOk = false := by
        rcases hFail with h | h | h
        · rw [henv] at h; exact absurd h (by simp)
        · rw [hst] at h; exact absurd h (by simp)
        · exact h
      try dsimp only at hres
      split at hres
      · simp only [Prod.mk.injEq] at hres
        obtain ⟨rfl, rfl, rfl, rfl⟩ := hres
        refine ⟨rfl, hFresh, fun hcon => ?_⟩
        rcases hcon with h | h
        · rw [henv] at h; exact absurd h (by simp)
        · rw [hst] at h; exact absurd h (by simp)
      next fs1a ev1 heq =>
        split at hres
        · simp only [Prod.mk.injEq] at hres
          obtain ⟨rfl, rfl, rfl, rfl⟩ := hres
          refine ⟨rfl, hFresh, fun hcon => ?_⟩
          rcases hcon with h | h
          · rw [henv] at h; exact absurd h (by simp)
          · rw [hst] at h; exact absurd h (by simp)
        next hdOk =>
          rw [hd] at hdOk
          exact absurd rfl hdOk

/-- C4 amended witness: concrete resolution failure. -/
theorem c4_amended_witness :
    (download_video ⟨none, true, true, fun _ => false⟩
        ⟨"u", "r", none, none, none, none⟩ ⟨["r"], []⟩).2.2.2 =
      .error (.cineNotesException "Failed to download video") ∧
    (download_video ⟨none, true, true, fun _ => false⟩
        ⟨"u", "r", none, none, none, none⟩ ⟨["r"], []⟩).1.video_filename = none ∧
    (((⟨none, true, true, fun _ => false⟩ : DlEnv).resolveTitle = none ∨
        (⟨none, true, true, fun _ => false⟩ : DlEnv).streamOk = false) →
      download_video ⟨none, true, true, fun _ => false⟩
          ⟨"u", "r", none, none, none, none⟩ ⟨["r"], []⟩ =
        (⟨"u", "r", none, none, none, none⟩, ⟨["r"], []⟩, [],
         .error (.cineNotesException "Failed to download video"))) :=
  c4_amended ⟨none, true, true, fun _ => false⟩
    ⟨"u", "r", none, none, none, none⟩ ⟨["r"], []⟩ rfl (Or.inl rfl)

/-- C3 counterexample: in a concrete fully successful acquisition the
event trace is `mkdir videoDir; persist video; mkdir audioDir; mkdir
framesDir` — its first event creates the video directory BEFORE the video
is persisted, refuting the claim that no directory of the tree is created
before the video is persisted (the directory must exist to receive the
download). -/
theorem c3_counterexample :
    (download_video ⟨some "t", true, true, fun _ => false⟩
        ⟨"u", "r", none, none, none, none⟩ ⟨["r"], []⟩).2.2.1 =
      [Event.mkdir "r/t", Event.persist "r/t/video.mp4", Event.mkdir "r/t/audio",
       Event.mkdir "r/t/frames"] ∧
    ((download_video ⟨some "t", true, true, fun _ => false⟩
        ⟨"u", "r", none, none, none, none⟩ ⟨["r"], []⟩).2.2.1).head? =
      some (Event.mkdir "r/t") :=
  ⟨rfl, rfl⟩

/-- C3 amended: in every successful acquisition starting from a filesystem
without the per-title tree, `videoDirectory` is created first, before the
video is persisted (it is the download destination); `audioDirectory` and
`framesDirectory` are then created together, immediately after the video
is persisted; and neither extractor ever creates a directory. -/
theorem c3_amended (env : DlEnv) (s : ProcState) (fs : FS) (t : String)
    (run : List String → RunOutcome) (s2 : ProcState)
    (audio_filename imagePre imageFmt : String)
    (ht : env.resolveTitle = some t) (hstr : env.streamOk = true)
    (hd : env.downloadOk = true)
    (hf1 : env.fsFail (joinPath s.output_base_dir (sanitize_filename t)) = false)
    (hf2 : env.fsFail (joinPath (joinPath s.output_base_dir (sanitize_filename t)) "audio") = false)
    (hf3 : env.fsFail (joinPath (joinPath s.output_base_dir (sanitize_filename t)) "frames") = false)
    (hc1 : joinPath s.output_base_dir (sanitize_filename t) ∉ fs.dirs)
    (hc2 : joinPath (joinPath s.output_base_dir (sanitize_filename t)) "audio" ∉ fs.dirs)
    (hc3 : joinPath (joinPath s.output_base_dir (sanitize_filename t)) "frames" ∉ fs.dirs) :
    (download_video env s fs).2.2.1 =
      [Event.mkdir (joinPath s.output_base_dir (sanitize_filename t)),
       Event.persist (joinPath (joinPath s.output_base_dir (sanitize_filename t)) "video.mp4"),
       Event.mkdir (joinPath (joinPath s.output_base_dir (sanitize_filename t)) "audio"),
       Event.mkdir (joinPath (joinPath s.output_base_dir (sanitize_filename t)) "frames")] ∧
    (extract_audio run s2 audio_filename).2.1.all (fun e => !e.isMkdir) = true ∧
    (extract_frames run s2 imagePre imageFmt).2.1.all (fun e => !e.isMkdir) = true := by
  refine ⟨?_, extract_audio_no_mkdir run s2 audio_filename,
    extract_frames_no_mkdir run s2 imagePre imageFmt⟩
  have hvne : ∀ b, joinPath (joinPath s.output_base_dir (sanitize_filename t)) b ≠
      joinPath s.output_base_dir (sanitize_filename t) :=
    fun b => joinPath_ne_parent _ b
  have hfa : joinPath (joinPath s.output_base_dir (sanitize_filename t)) "frames" ≠
      joinPath (joinPath s.output_base_dir (sanitize_filename t)) "audio" :=
    joinPath_ne_join _ _ _ (by decide)
  simp [download_video, osMakedirs, ht, hstr, hd, hf1, hf2, hf3, hc1, hc2, hc3, hvne, hfa]

/-- C3 amended witness: concrete successful acquisition and extractions. -/
theorem c3_amended_witness :
    (download_video ⟨some "t", true, true, fun _ => false⟩
        ⟨"u", "r", none, none, none, none⟩ ⟨["r"], []⟩).2.2.1 =
      [Event.mkdir (joinPath "r" (sanitize_filename "t")),
       Event.persist (joinPath (joinPath "r" (sanitize_filename "t")) "video.mp4"),
       Event.mkdir (joinPath (joinPath "r" (sanitize_filename "t")) "audio"),
       Event.mkdir (joinPath (joinPath "r" (sanitize_filename "t")) "frames")] ∧
    (extract_audio (fun _ => RunOutcome.exited 0)
        ⟨"u", "r", some "r/t/video.mp4", some "r/t", some "r/t/audio", some "r/t/frames"⟩
        "audio.wav").2.1.all (fun e => !e.isMkdir) = true ∧
    (extract_frames (fun _ => RunOutcome.exited 0)
        ⟨"u", "r", some "r/t/video.mp4", some "r/t", some "r/t/audio", some "r/t/frames"⟩
        "frame_" "jpg").2.1.all (fun e => !e.isMkdir) = true :=
  c3_amended ⟨some "t", true, true, fun _ => false⟩
    ⟨"u", "r", none, none, none, none⟩ ⟨["r"], []⟩ "t"
    (fun _ => RunOutcome.exited 0)
    ⟨"u", "r", some "r/t/video.mp4", some "r/t", some "r/t/audio", some "r/t/frames"⟩
    "audio.wav" "frame_" "jpg"
    rfl rfl rfl rfl rfl rfl (by decide) (by decide) (by decide)

theorem persist_noop (fs : FS) (f : Path) (h : f ∈ fs.files) :
    ({ fs with files := if f ∈ fs.files then fs.files else fs.files ++ [f] } : FS) = fs := by
  rw [if_pos h]

/-- C9: directory creation throughout the pipeline is idempotent: if
construction succeeded and a subsequent acquisition fully succeeded,
re-running construction on the resulting filesystem returns the same
session and an unchanged tree with no creation events, and re-running
acquisition with the same environment succeeds again, creates no
directory (its only event is re-persisting/overwriting the video file),
and leaves the session state and the directory tree identical. -/
theorem c9_layout_idempotent (fail : Path → Bool) (fs : FS) (url root : String)
    (s s' : ProcState) (fs1 fs2 : FS) (ev0 ev : List Event) (env : DlEnv) (p : Path)
    (hinit : init fail fs url root = .ok (s, fs1, ev0))
    (hdl : download_video env s fs1 = (s', fs2, ev, .ok p)) :
    init fail fs2 url root = .ok (s, fs2, []) ∧
    download_video env s' fs2 = (s', fs2, [Event.persist p], .ok p) := by
  have hs := init_ok_shape fail fs url root s fs1 ev0 hinit
  subst hs
  unfold init at hinit
  split at hinit
  · exact absurd hinit (by simp)
  next fs1v ev0v heq0 =>
    rw [Except.ok.injEq, Prod.mk.injEq, Prod.mk.injEq] at hinit
    obtain ⟨-, hfs1, hev0⟩ := hinit
    subst hfs1
    subst hev0
    obtain ⟨hfail0, hmem0, hmono0, hfiles0, hev0x, hold0⟩ :=
      osMakedirs_ok_facts _ _ _ _ _ _ heq0
    unfold download_video at hdl
    split at hdl
    · exact absurd hdl (by simp)
    next t ht =>
      split at hdl
      · exact absurd hdl (by simp)
      next hstream =>
        have hstr : env.streamOk = true := by
          rcases h' : env.streamOk with _ | _
          · rw [h'] at hstream; exact absurd rfl hstream
          · rfl
        try dsimp only at hdl
        split at hdl
        · exact absurd hdl (by simp)
        next fs1a ev1 heq1 =>
          split at hdl
          · exact absurd hdl (by simp)
          next hdOkc =>
            have hdOk : env.downloadOk = true := by
              rcases h' : env.downloadOk with _ | _
              · rw [h'] at hdOkc; exact absurd rfl hdOkc
              · rfl
            try dsimp only at hdl
            split at hdl
            · exact absurd hdl (by simp)
            next fs3 ev3 heq3 =>
              split at hdl
              · exact absurd hdl (by simp)
              next fs4 ev4 heq4 =>
                simp only [Prod.mk.injEq, Except.ok.injEq] at hdl
                obtain ⟨rfl, rfl, rfl, rfl⟩ := hdl
                obtain ⟨hfail1, hmem1, hmono1, hfiles1, hev1x, hold1⟩ :=
                  osMakedirs_ok_facts _ _ _ _ _ _ heq1
                obtain ⟨hfail3, hmem3, hmono3, hfiles3, hev3x, hold3⟩ :=
                  osMakedirs_ok_facts _ _ _ _ _ _ heq3
                obtain ⟨hfail4, hmem4, hmono4, hfiles4, hev4x, hold4⟩ :=
                  osMakedirs_ok_facts _ _ _ _ _ _ heq4
                have hvdir4 : joinPath root (sanitize_filename t) ∈ fs4.dirs :=
                  hmono4 _ (hmono3 _ hmem1)
                have hadir4 : joinPath (joinPath root (sanitize_filename t)) "audio" ∈ fs4.dirs :=
                  hmono4 _ hmem3
                have hfdir4 : joinPath (joinPath root (sanitize_filename t)) "frames" ∈ fs4.dirs :=
                  hmem4
                have hroot4 : root ∈ fs4.dirs :=
                  hmono4 _ (hmono3 _ (hmono1 _ hmem0))
                have hvfile4 :
                    joinPath (joinPath root (sanitize_filename t)) "video.mp4" ∈ fs4.files := by
                  rw [hfiles4, hfiles3]
                  show joinPath (joinPath root (sanitize_filename t)) "video.mp4" ∈
                    (if joinPath (joinPath root (sanitize_filename t)) "video.mp4" ∈ fs1a.files then fs1a.files else fs1a.files ++ [joinPath (joinPath root (sanitize_filename t)) "video.mp4"])
                  split
                  next hin => exact hin
                  next hnin => exact List.mem_append_right _ (List.mem_singleton.mpr rfl)
                refine ⟨?_, ?_⟩
                · unfold init
                  rw [osMakedirs_existing fail fs4 root hfail0 hroot4]
                · rw [download_video_success env _ fs4 fs4 fs4 fs4 t [] [] [] ht hstr hdOk
                    (osMakedirs_existing env.fsFail fs4 _ hfail1 hvdir4)
                    (by dsimp only
                        rw [persist_noop fs4 _ hvfile4]
                        exact osMakedirs_existing env.fsFail fs4 _ hfail3 hadir4)
                    (osMakedirs_existing env.fsFail fs4 _ hfail4 hfdir4)]
                  rfl

/-- C9 witness: concrete construction and acquisition, then both re-run. -/
theorem c9_layout_idempotent_witness :
    init (fun _ => false) ⟨["r", "r/t", "r/t/audio", "r/t/frames"], ["r/t/video.mp4"]⟩ "u" "r" =
      .ok (⟨"u", "r", none, none, none, none⟩,
        ⟨["r", "r/t", "r/t/audio", "r/t/frames"], ["r/t/video.mp4"]⟩, []) ∧
    download_video ⟨some "t", true, true, fun _ => false⟩
        ⟨"u", "r", some "r/t/video.mp4", some "r/t", some "r/t/audio", some "r/t/frames"⟩
        ⟨["r", "r/t", "r/t/audio", "r/t/frames"], ["r/t/video.mp4"]⟩ =
      (⟨"u", "r", some "r/t/video.mp4", some "r/t", some "r/t/audio", some "r/t/frames"⟩,
       ⟨["r", "r/t", "r/t/audio", "r/t/frames"], ["r/t/video.mp4"]⟩,
       [Event.persist "r/t/video.mp4"], .ok "r/t/video.mp4") :=
  c9_layout_idempotent (fun _ => false) ⟨[], []⟩ "u" "r"
    ⟨"u", "r", none, none, none, none⟩
    ⟨"u", "r", some "r/t/video.mp4", some "r/t", some "r/t/audio", some "r/t/frames"⟩
    ⟨["r"], []⟩ ⟨["r", "r/t", "r/t/audio", "r/t/frames"], ["r/t/video.mp4"]⟩
    [Event.mkdir "r"]
    [Event.mkdir "r/t", Event.persist "r/t/video.mp4", Event.mkdir "r/t/audio",
      Event.mkdir "r/t/frames"]
    ⟨some "t", true, true, fun _ => false⟩ "r/t/video.mp4" rfl rfl

end CineNotes
